import Mathlib

/-!
# SpeakSafe backend — verification of the messaging / matching core

Shallow embedding of the relevant parts of the repository:

* `src/api/ws/server.js` — the WebSocket message router (`setupWebSocket`):
  inbound-payload parsing (`JSON.parse(message).data[0]`), the mutual-match
  check, message persistence, live delivery vs. offline notification, and the
  connection registry (`clients` Map with `set`/`get`/`delete`).
* `src/unnamed/part_003` (the `/users` Express router) — `POST /users/:id/like`,
  the like / match state transition.
* `src/unnamed/part_002` — the Mongoose schemas (`NotificationSchema` with
  `read: { default: false }`, `MessageSchema`, `UserSchema`).

JavaScript values that matter to the control flow (property access on
`undefined` throwing, strict equality between a string and a Mongoose
ObjectId, Mongoose array `includes` comparing by `toString`) are modelled
explicitly; Dates are modelled as an abstract `now : Nat` supplied by the
caller, and MongoDB collections as association lists keyed by the ObjectId
hex string.
-/

/-! ## JSON values and JavaScript expression semantics -/

/-- A parsed JSON value, the result of a successful `JSON.parse`. -/
inductive Json where
  | null
  | bool (b : Bool)
  | num (n : Int)
  | str (s : String)
  | arr (elems : List Json)
  | obj (fields : List (String × Json))

/-- A JavaScript value as seen by the handler: either a JSON value or
`undefined` (`none`), which `JSON.parse` itself never returns but property
access can produce. -/
def JsVal : Type := Option Json

/-- Field lookup in a JSON object's field list (first binding wins, as for a
parsed JSON object). -/
def jsonField (k : String) : List (String × Json) → Option Json
  | [] => none
  | (k', v) :: rest => if k' == k then some v else jsonField k rest

/-- JavaScript property access `v.k`. Throws (`Except.error`) exactly when the
receiver is `undefined` or `null`; on an object it yields the field or
`undefined`; on any other primitive or on an array the named properties used
by the handler (`data`, `type`, `to`, `content`) are absent, yielding
`undefined`. -/
def jsProp (v : JsVal) (k : String) : Except Unit JsVal :=
  match v with
  | none => .error ()
  | some .null => .error ()
  | some (.obj fields) => .ok (jsonField k fields)
  | some _ => .ok none

/-- JavaScript index access `v[0]`. Throws exactly when the receiver is
`undefined` or `null`; an array yields its head (or `undefined` when empty), a
string yields its first character as a one-character string, an object yields
its `"0"` property, numbers and booleans yield `undefined`. -/
def jsIndexZero (v : JsVal) : Except Unit JsVal :=
  match v with
  | none => .error ()
  | some .null => .error ()
  | some (.arr elems) => .ok elems.head?
  | some (.str s) =>
      .ok (if s.isEmpty then none else some (.str (String.singleton s.front)))
  | some (.obj fields) => .ok (jsonField "0" fields)
  | some _ => .ok none

/-- `data.type === "message"`: strict equality against the string literal
`"message"` holds only for that exact JavaScript string. -/
def isMessageType (v : JsVal) : Bool :=
  match v with
  | some (.str s) => s == "message"
  | _ => false

/-- Mongoose array `includes(x)` on an array of ObjectIds compares each
element's string form against `x` with loose equality, so a JavaScript string
matches the ObjectId with that hex string and no non-string value matches.
The ObjectIds are modelled by their hex strings. -/
def mongooseIncludes (ids : List String) (x : JsVal) : Bool :=
  match x with
  | some (.str s) => ids.contains s
  | _ => false

/-! ## The connection registry (`clients` Map in `setupWebSocket`)

`clients` maps a user id to its WebSocket; connections are identified here by
a numeric handle. A JavaScript `Map` has at most one entry per key, which
`clientsSet` maintains, and `Map.delete` then coincides with removing every
entry for the key. -/

/-- The `clients` registry: user id → connection handle. -/
def Registry : Type := List (String × Nat)

/-- `clients.set(userId, ws)` (line 44 of `src/api/ws/server.js`): replaces
the entry for `userId` if present, otherwise appends one. -/
def clientsSet (r : Registry) (userId : String) (ws : Nat) : Registry :=
  match r with
  | [] => [(userId, ws)]
  | (u, w) :: rest =>
      if u == userId then (u, ws) :: rest else (u, w) :: clientsSet rest userId ws

/-- `clients.get(userId)` (line 79). -/
def clientsGet (r : Registry) (userId : String) : Option Nat :=
  match r with
  | [] => none
  | (u, w) :: rest => if u == userId then some w else clientsGet rest userId

/-- The `close` handler (lines 109–111): `clients.delete(userId)`. The closing
connection `ws` is in scope but never consulted — the entry for `userId` is
removed unconditionally. -/
def onCloseHandler (r : Registry) (userId : String) (_ws : Nat) : Registry :=
  r.filter (fun p => !(p.1 == userId))

/-! ## Mongoose documents (`src/unnamed/part_002`) -/

/-- An embedded notification subdocument. Inserting one without an explicit
`read` applies the schema default `read: false`. -/
structure Notif where
  type : String
  content : String
  read : Bool
deriving DecidableEq

/-- A stored message (`msgObj` in the handler): `content` is whatever
JavaScript value the inbound payload carried, `date` the server-assigned
timestamp. -/
structure StoredMsg where
  sender : String
  recipient : String
  content : JsVal
  date : Nat

/-- The slice of a `User` document read and written by the WebSocket handler. -/
structure WsUser where
  name : String
  «matches» : List String
  messages : List StoredMsg
  notifications : List Notif

/-- The users collection, keyed by ObjectId hex string. -/
def WsDb : Type := List (String × WsUser)

/-- `User.findById(id)`: the collection holds at most one document per id, so
the first key match is the document. (Polymorphic so the same lookup serves
the WebSocket-side and route-side views of the collection.) -/
def findById {α : Type} (db : List (String × α)) (id : String) : Option α :=
  match db with
  | [] => none
  | (k, u) :: rest => if k == id then some u else findById rest id

/-- `User.updateOne({_id: id}, {$push: {messages: m}})`: appends to the
matching document's message log; a non-existent id matches no document and
the update is a no-op. -/
def pushMessage (db : WsDb) (id : String) (m : StoredMsg) : WsDb :=
  db.map (fun p =>
    (p.1, if p.1 == id then { p.2 with messages := p.2.messages ++ [m] } else p.2))

/-- `User.updateOne({_id: id}, {$push: {notifications: n}})`, with the schema
default `read := false` already applied to `n`. -/
def pushNotification (db : WsDb) (id : String) (n : Notif) : WsDb :=
  db.map (fun p =>
    (p.1, if p.1 == id then { p.2 with notifications := p.2.notifications ++ [n] } else p.2))

/-! ## The WebSocket message handler (`ws.on("message", ...)`, lines 47–107)

The handler receives the raw frame; `raw = none` models a frame on which
`JSON.parse` throws. A `persistFail` flag models the two message
`User.updateOne` calls rejecting (the `try`/`catch` at lines 66–77 catches
that rejection, logs it, and falls through); the notification write is
modelled as succeeding. The server-assigned timestamp `new Date()` is the
abstract `now`. -/

/-- The payload pushed to the recipient's socket on live delivery
(lines 81–88): `{ type: "message", from, content, date }`. -/
structure LivePush where
  sender : String
  content : JsVal
  date : Nat

/-- The observable outcome of one inbound frame: the users collection
afterwards, the response written back to the sender's socket (`none` when
nothing is sent), and the live push to the recipient's socket (tagged with
the connection handle it went to), if any. -/
structure WsResult where
  db : WsDb
  response : Option String
  push : Option (Nat × LivePush)

/-- `ws.send(JSON.stringify({ error: "Invalid message format" }))` (line 105). -/
def invalidFormatMsg : String := "Invalid message format"

/-- `ws.send(JSON.stringify({ error: "Not a mutual match" }))` (line 55). -/
def notMatchMsg : String := "Not a mutual match"

/-- Lines 51–102, after the `data.type === "message"` check has succeeded:
destructure `to`/`content`, authorize against the sender's `matches`, persist
to both logs, then deliver live or fall back to a notification.

The mutual-match check is `if (!user.matches.includes(to))` (line 54);
`mongooseIncludes` succeeds only when `to` is the string of a stored
ObjectId, so the case split on `to` below is that check unfolded: every
non-string `to` takes the `Not a mutual match` early return. -/
def routeMessage (db : WsDb) (clients : Registry) (userId : String)
    («to» content : JsVal) (persistFail : Bool) (now : Nat) : WsResult :=
  match findById db userId with
  | none =>
      -- `User.findById` found nothing, `user.matches` throws on `null`,
      -- and the surrounding catch answers with the generic error
      ⟨db, some invalidFormatMsg, none⟩
  | some user =>
      match «to» with
      | some (.str toId) =>
          if user.«matches».contains toId then
            let msgObj : StoredMsg := ⟨userId, toId, content, now⟩
            -- lines 66–77: both $push updates, or neither when they reject
            -- (the catch only logs)
            let db1 := if persistFail then db
                       else pushMessage (pushMessage db userId msgObj) toId msgObj
            match clientsGet clients toId with
            | some ws => ⟨db1, none, some (ws, ⟨userId, content, now⟩)⟩
            | none =>
                ⟨pushNotification db1 toId
                    ⟨"message", "New message from " ++ user.name, false⟩,
                  none, none⟩
          else ⟨db, some notMatchMsg, none⟩
      | _ => ⟨db, some notMatchMsg, none⟩

/-- The full `ws.on("message")` handler body (lines 47–107):
`JSON.parse(message).data[0]` with every JavaScript throw funnelled to the
`Invalid message format` response, the `data.type === "message"` dispatch
(any other frame falls off the `if` with no response and no effect), then
`routeMessage`. -/
def handleWsMessage (db : WsDb) (clients : Registry) (userId : String)
    (raw : Option Json) (persistFail : Bool) (now : Nat) : WsResult :=
  match raw with
  | none => ⟨db, some invalidFormatMsg, none⟩
  | some parsed =>
      match (jsProp (some parsed) "data").bind jsIndexZero with
      | .error _ => ⟨db, some invalidFormatMsg, none⟩
      | .ok data =>
          match jsProp data "type" with
          | .error _ => ⟨db, some invalidFormatMsg, none⟩
          | .ok ty =>
              if isMessageType ty then
                -- `const { to, content } = data` cannot throw once
                -- `data.type` has been read successfully
                routeMessage db clients userId
                  ((jsProp data "to").toOption.getD none)
                  ((jsProp data "content").toOption.getD none)
                  persistFail now
              else ⟨db, none, none⟩

/-- The wire frame the repository's frontend actually sends
(`src/unnamed/part_000`, `handleSendMessage`):
`{ data: [ { type: "message", to, content } ] }`. -/
def wrappedMsgPayload («to» content : String) : Json :=
  .obj [("data", .arr [.obj
    [("type", .str "message"), ("to", .str «to»), ("content", .str content)]])]

/-- The wire frame documented in the file's own header comment (lines 1–9 of
`src/api/ws/server.js`) and in the README:
`{ type: "message", to, content }`. -/
def flatMsgPayload («to» content : String) : Json :=
  .obj [("type", .str "message"), ("to", .str «to»), ("content", .str content)]

/-! ## The like route (`POST /users/:id/like`, `src/unnamed/part_003` 17–68)

Here the distinction between a JavaScript string and a Mongoose ObjectId is
load-bearing: `req.params.id` (`targetId`) is a string, `req.user._id`
(`userId`) is an ObjectId (the route itself calls `userId.toString()` on it
at lines 22 and 46), and the stored arrays hold ObjectIds. -/

/-- A route-level id value: a Mongoose ObjectId or a JavaScript string, both
rendering to the same hex string via `toString()`. -/
inductive JsId where
  | oid (hex : String)
  | jstr (s : String)
deriving DecidableEq

/-- `toString()` of an id value. -/
def JsId.toStr : JsId → String
  | .oid h => h
  | .jstr s => s

/-- JavaScript strict equality `===` between id values, as the route's
`filter` predicates use it: two strings compare by contents; a string and an
ObjectId have different types and are never strictly equal. (The route never
compares two ObjectIds with `===`; they would be distinct heap objects, hence
`false` as well.) -/
def jsStrictEq : JsId → JsId → Bool
  | .jstr a, .jstr b => a == b
  | _, _ => false

/-- Mongoose array `includes(x)` on an ObjectId array, route-side: loose
equality compares by string form, so both a string and an ObjectId argument
match the stored ObjectId with the same hex string. -/
def mIncludes (arr : List JsId) (x : JsId) : Bool :=
  arr.any (fun v => v.toStr == x.toStr)

/-- The slice of a `User` document read and written by the like route. -/
structure LUser where
  name : String
  likedUsers : List JsId
  likedBy : List JsId
  «matches» : List JsId
  notifications : List Notif
deriving DecidableEq

/-- The users collection as the like route sees it. -/
def LDb : Type := List (String × LUser)

/-- `/^[a-fA-F0-9]{24}$/` (line 20). -/
def isValidObjectIdString (s : String) : Bool :=
  s.length == 24 &&
    s.data.all (fun c =>
      c.isDigit || (('a' ≤ c) && (c ≤ 'f')) || (('A' ≤ c) && (c ≤ 'F')))

/-- The route's possible HTTP replies. -/
inductive LikeResponse where
  | invalidUserId                -- 400 `{error: "Invalid user ID"}`
  | cannotLikeYourself           -- 400 `{error: "Cannot like yourself"}`
  | userNotFound                 -- 404 `{error: "User not found"}`
  | alreadyMatched               -- 200 `{message: "Already matched"}`
  | success («matched» : Bool)   -- 200 `{success: true, matched}`
deriving DecidableEq

/-- `Promise.all([user.save(), target.save()])` (line 62): both updated
documents are written back under their keys (the self-like check has already
ensured the two keys differ). -/
def saveBoth (db : LDb) (userKey : String) (user : LUser)
    (targetKey : String) (target : LUser) : LDb :=
  db.map (fun p =>
    (p.1, if p.1 == userKey then user else if p.1 == targetKey then target else p.2))

/-- Lines 36–61 with `targetLikesUser = true`: the match transition. Both
`matches` pushes are guarded by `includes` exactly as in the source (both
guards are vacuously open here because the `alreadyMatched` early return has
fired otherwise). The four `filter` calls are lines 40–49; in the last one
(line 49, `target.likedBy`) the source compares `id.toString() !== userId`
without `.toString()` on `userId`, i.e. a string against an ObjectId. -/
def likeMatchBranch (user target : LUser) (userId targetId : JsId) :
    LUser × LUser :=
  let user' : LUser :=
    { user with
      «matches» := if mIncludes user.«matches» targetId then user.«matches»
                   else user.«matches» ++ [.oid targetId.toStr],
      likedUsers := user.likedUsers.filter
        (fun id => !(jsStrictEq (.jstr id.toStr) targetId)),
      likedBy := user.likedBy.filter
        (fun id => !(jsStrictEq (.jstr id.toStr) targetId)),
      notifications := user.notifications ++
        [⟨"match", "You matched with " ++ target.name, false⟩] }
  let target' : LUser :=
    { target with
      «matches» := if mIncludes target.«matches» userId then target.«matches»
                   else target.«matches» ++ [userId],
      likedUsers := target.likedUsers.filter
        (fun id => !(jsStrictEq (.jstr id.toStr) (.jstr userId.toStr))),
      likedBy := target.likedBy.filter
        (fun id => !(jsStrictEq (.jstr id.toStr) userId)),
      notifications := target.notifications ++
        [⟨"match", "You matched with " ++ user.name, false⟩] }
  (user', target')

/-- Lines 58–61, the one-directional like: `push` guarded by `includes` on
both sides (idempotence). `user.likedUsers.push(targetId)` pushes the string,
which Mongoose casts to an ObjectId on the typed array. -/
def likeLikeBranch (user target : LUser) (userId targetId : JsId) :
    LUser × LUser :=
  let user' : LUser :=
    { user with
      likedUsers := if mIncludes user.likedUsers targetId then user.likedUsers
                    else user.likedUsers ++ [.oid targetId.toStr] }
  let target' : LUser :=
    { target with
      likedBy := if mIncludes target.likedBy userId then target.likedBy
                 else target.likedBy ++ [userId] }
  (user', target')

/-- `POST /users/:id/like` (lines 17–68). `userIdHex` is the hex string of
the authenticated user's ObjectId `req.user._id`; `targetIdStr` is the path
parameter `req.params.id`. -/
def likeUser (db : LDb) (userIdHex targetIdStr : String) :
    LikeResponse × LDb :=
  if !(isValidObjectIdString targetIdStr) then (.invalidUserId, db)
  else if (JsId.oid userIdHex).toStr == targetIdStr then (.cannotLikeYourself, db)
  else
    match findById db userIdHex, findById db targetIdStr with
    | some user, some target =>
        if mIncludes user.«matches» (.jstr targetIdStr)
            || mIncludes target.«matches» (.oid userIdHex) then
          (.alreadyMatched, db)
        else if mIncludes target.likedUsers (.oid userIdHex) then
          -- `targetLikesUser` is true: the match transition, then
          -- `res.json({success: true, matched: true})`
          (.success true,
            saveBoth db
              userIdHex (likeMatchBranch user target (.oid userIdHex) (.jstr targetIdStr)).1
              targetIdStr (likeMatchBranch user target (.oid userIdHex) (.jstr targetIdStr)).2)
        else
          (.success false,
            saveBoth db
              userIdHex (likeLikeBranch user target (.oid userIdHex) (.jstr targetIdStr)).1
              targetIdStr (likeLikeBranch user target (.oid userIdHex) (.jstr targetIdStr)).2)
    | _, _ => (.userNotFound, db)

/-- Spec-level "A is in B.matches" on the route-side collection, comparing by
id string. -/
def matchedIn (db : LDb) (x y : String) : Bool :=
  match findById db x with
  | some u => u.«matches».any (fun v => v.toStr == y)
  | none => false

/-! ## Observation helpers and concrete scenarios -/

/-- The notification log of the user with id `x`, if that user exists. -/
def notifsAt (db : WsDb) (x : String) : Option (List Notif) :=
  (findById db x).map (fun u => u.notifications)

/-- The message log of the user with id `x`, if that user exists. -/
def msgsAt (db : WsDb) (x : String) : Option (List StoredMsg) :=
  (findById db x).map (fun u => u.messages)

/-- A concrete 24-hex-character user id. -/
def idA : String := "aaaaaaaaaaaaaaaaaaaaaaaa"

/-- A second concrete 24-hex-character user id. -/
def idB : String := "bbbbbbbbbbbbbbbbbbbbbbbb"

/-- A user already matched with `idB`, empty logs. -/
def aliceWs : WsUser := ⟨"Alice", [idB], [], []⟩

/-- A user already matched with `idA`, empty logs. -/
def bobWs : WsUser := ⟨"Bob", [idA], [], []⟩

/-- Two mutually matched users with empty logs. -/
def wsDbMatched : WsDb := [(idA, aliceWs), (idB, bobWs)]

/-- Two users with no relationship at all. -/
def wsDbUnrelated : WsDb := [(idA, ⟨"Alice", [], [], []⟩), (idB, ⟨"Bob", [], [], []⟩)]

/-- Registry with both users connected. -/
def clientsBoth : Registry := [(idA, 1), (idB, 2)]

/-- Registry with only the sender connected. -/
def clientsAOnly : Registry := [(idA, 1)]

/-- Like-route collection in the state produced by two concurrent mutual
likes that both took the one-directional branch (each read the other's
record before either write landed, the lost-update interleaving §5 of the
spec warns about): both one-directional like records exist in both
directions, and no match yet. -/
def likeDbConcurrent : LDb :=
  [(idA, ⟨"Alice", [.oid idB], [.oid idB], [], []⟩),
   (idB, ⟨"Bob", [.oid idA], [.oid idA], [], []⟩)]

/-! ## General lemmas about the collection operations -/

/-- Looking a key up after a key-preserving re-mapping of the collection. -/
theorem findById_map {α : Type} (db : List (String × α)) (g : String × α → α)
    (x : String) :
    findById (db.map (fun p => (p.1, g p))) x
      = (findById db x).map (fun v => g (x, v)) := by
  induction db with
  | nil => rfl
  | cons p rest ih =>
      obtain ⟨k, v⟩ := p
      by_cases h : k = x
      · subst h
        simp [findById]
      · simp [findById, h, ih]

/-- `pushMessage` leaves every user's notification log unchanged. -/
theorem notifsAt_pushMessage (db : WsDb) (id x : String) (m : StoredMsg) :
    notifsAt (pushMessage db id m) x = notifsAt db x := by
  unfold notifsAt pushMessage
  rw [findById_map]
  cases findById db x with
  | none => rfl
  | some u => simp only [Option.map_some]; split <;> rfl

/-- `pushNotification` leaves every user's message log unchanged. -/
theorem msgsAt_pushNotification (db : WsDb) (id x : String) (n : Notif) :
    msgsAt (pushNotification db id n) x = msgsAt db x := by
  unfold msgsAt pushNotification
  rw [findById_map]
  cases findById db x with
  | none => rfl
  | some u => simp only [Option.map_some]; split <;> rfl

/-- `pushMessage` appends exactly one record to the target's message log. -/
theorem msgsAt_pushMessage_self (db : WsDb) (id : String) (m : StoredMsg) :
    msgsAt (pushMessage db id m) id = (msgsAt db id).map (fun l => l ++ [m]) := by
  unfold msgsAt pushMessage
  rw [findById_map]
  cases findById db id with
  | none => rfl
  | some u => simp

/-- `pushMessage` to another key leaves a user's message log unchanged. -/
theorem msgsAt_pushMessage_other (db : WsDb) (id x : String) (m : StoredMsg)
    (h : x ≠ id) :
    msgsAt (pushMessage db id m) x = msgsAt db x := by
  unfold msgsAt pushMessage
  rw [findById_map]
  cases findById db x with
  | none => rfl
  | some u => simp [h]

/-- `pushNotification` appends exactly one record to the target's
notification log. -/
theorem notifsAt_pushNotification_self (db : WsDb) (id : String) (n : Notif) :
    notifsAt (pushNotification db id n) id = (notifsAt db id).map (fun l => l ++ [n]) := by
  unfold notifsAt pushNotification
  rw [findById_map]
  cases findById db id with
  | none => rfl
  | some u => simp

/-- `pushNotification` to another key leaves a user's notification log
unchanged. -/
theorem notifsAt_pushNotification_other (db : WsDb) (id x : String) (n : Notif)
    (h : x ≠ id) :
    notifsAt (pushNotification db id n) x = notifsAt db x := by
  unfold notifsAt pushNotification
  rw [findById_map]
  cases findById db x with
  | none => rfl
  | some u => simp [h]

/-! ## Lemmas about the like route -/

/-- String `==` is symmetric. -/
theorem strBeqComm (x y : String) : (x == y) = (y == x) := by
  by_cases h : x = y
  · subst h; rfl
  · rw [beq_eq_false_iff_ne.mpr h, beq_eq_false_iff_ne.mpr (Ne.symm h)]

/-- `findById` after `saveBoth`. -/
theorem findById_saveBoth (db : LDb) (ka : String) (ua : LUser)
    (kt : String) (ut : LUser) (x : String) :
    findById (saveBoth db ka ua kt ut) x
      = (findById db x).map (fun v => if x == ka then ua else if x == kt then ut else v) := by
  unfold saveBoth
  rw [findById_map]

/-- Shape of the like route's resulting collection: untouched, or both
records rewritten through the match branch (with the branch's preconditions
recorded), or both records rewritten through the one-directional-like
branch. -/
theorem likeUser_db_characterization (db : LDb) (a t : String) :
    (likeUser db a t).2 = db ∨
    (∃ user target,
      findById db a = some user ∧ findById db t = some target ∧
      (a == t) = false ∧
      mIncludes user.«matches» (.jstr t) = false ∧
      mIncludes target.«matches» (.oid a) = false ∧
      (likeUser db a t).2
        = saveBoth db a (likeMatchBranch user target (.oid a) (.jstr t)).1
                    t (likeMatchBranch user target (.oid a) (.jstr t)).2) ∨
    (∃ user target,
      findById db a = some user ∧ findById db t = some target ∧
      (likeUser db a t).2
        = saveBoth db a (likeLikeBranch user target (.oid a) (.jstr t)).1
                    t (likeLikeBranch user target (.oid a) (.jstr t)).2) := by
  unfold likeUser
  split
  · left; rfl
  · split
    · left; rfl
    · rename_i hself
      split
      · rename_i user target hu ht
        split
        · left; rfl
        · rename_i halready
          have hor := Bool.or_eq_false_iff.mp (Bool.of_not_eq_true halready)
          split
          · right; left
            refine ⟨user, target, hu, ht, ?_, hor.1, hor.2, rfl⟩
            simpa [JsId.toStr] using Bool.of_not_eq_true hself
          · right; right
            exact ⟨user, target, hu, ht, rfl⟩
      · left; rfl

/-- After the match branch, the match relation gains exactly the pair
`(a, t)` in both directions. -/
theorem matchedIn_after_matchBranch (db : LDb) (a t : String)
    (user target : LUser)
    (hu : findById db a = some user) (ht : findById db t = some target)
    (hat : (a == t) = false)
    (hmu : mIncludes user.«matches» (.jstr t) = false)
    (hmt : mIncludes target.«matches» (.oid a) = false)
    (x y : String) :
    matchedIn (saveBoth db a (likeMatchBranch user target (.oid a) (.jstr t)).1
                          t (likeMatchBranch user target (.oid a) (.jstr t)).2) x y
      = (matchedIn db x y || ((x == a) && (y == t)) || ((x == t) && (y == a))) := by
  unfold matchedIn
  rw [findById_saveBoth]
  cases hx : findById db x with
  | none =>
      have hxa : (x == a) = false := by
        refine beq_eq_false_iff_ne.mpr (fun h => ?_)
        subst h; rw [hx] at hu; cases hu
      have hxt : (x == t) = false := by
        refine beq_eq_false_iff_ne.mpr (fun h => ?_)
        subst h; rw [hx] at ht; cases ht
      simp [hxa, hxt]
  | some v =>
      by_cases hxa : x = a
      · subst hxa
        rw [hx] at hu
        cases hu
        have hta : (x == t) = false := hat
        simp only [Option.map_some, beq_self_eq_true, if_true,
          likeMatchBranch, hmu, Bool.false_eq_true, if_false]
        simp [List.any_append, hta, JsId.toStr, strBeqComm t y, Bool.or_assoc]
      · by_cases hxt : x = t
        · subst hxt
          rw [hx] at ht
          cases ht
          have hxa' : (x == a) = false := beq_eq_false_iff_ne.mpr hxa
          simp only [Option.map_some, hxa', Bool.false_eq_true, if_false,
            beq_self_eq_true, if_true, likeMatchBranch, hmt]
          simp [List.any_append, hxa', JsId.toStr, strBeqComm a y]
        · have h1 : (x == a) = false := beq_eq_false_iff_ne.mpr hxa
          have h2 : (x == t) = false := beq_eq_false_iff_ne.mpr hxt
          simp [h1, h2]

/-- After the one-directional-like branch, the match relation is unchanged:
only `likedUsers`/`likedBy` move. -/
theorem matchedIn_after_likeBranch (db : LDb) (a t : String)
    (user target : LUser)
    (hu : findById db a = some user) (ht : findById db t = some target)
    (x y : String) :
    matchedIn (saveBoth db a (likeLikeBranch user target (.oid a) (.jstr t)).1
                          t (likeLikeBranch user target (.oid a) (.jstr t)).2) x y
      = matchedIn db x y := by
  unfold matchedIn
  rw [findById_saveBoth]
  cases hx : findById db x with
  | none => rfl
  | some v =>
      by_cases hxa : x = a
      · subst hxa
        rw [hx] at hu
        cases hu
        simp [likeLikeBranch]
      · by_cases hxt : x = t
        · subst hxt
          rw [hx] at ht
          cases ht
          have h1 : (x == a) = false := beq_eq_false_iff_ne.mpr hxa
          simp [likeLikeBranch, h1]
        · have h1 : (x == a) = false := beq_eq_false_iff_ne.mpr hxa
          have h2 : (x == t) = false := beq_eq_false_iff_ne.mpr hxt
          simp [h1, h2]

/-! ## Claim theorems: the like route -/

/-- C3: for every like operation and every pair of users (X,Y), if X is in
Y's matches exactly when Y is in X's matches before the operation, the same
holds after it — `POST /users/:id/like` preserves the symmetry of the
matches relation. -/
theorem likeUser_preserves_match_symmetry (db : LDb) (a t X Y : String)
    (hsym : matchedIn db X Y = matchedIn db Y X) :
    matchedIn (likeUser db a t).2 X Y = matchedIn (likeUser db a t).2 Y X := by
  rcases likeUser_db_characterization db a t with h | h | h
  · rw [h]; exact hsym
  · obtain ⟨user, target, hu, ht, hat, hmu, hmt, h⟩ := h
    rw [h, matchedIn_after_matchBranch db a t user target hu ht hat hmu hmt,
      matchedIn_after_matchBranch db a t user target hu ht hat hmu hmt, hsym]
    cases hXa : (X == a) <;> cases hXt : (X == t) <;>
      cases hYa : (Y == a) <;> cases hYt : (Y == t) <;> simp
  · obtain ⟨user, target, hu, ht, h⟩ := h
    rw [h, matchedIn_after_likeBranch db a t user target hu ht,
      matchedIn_after_likeBranch db a t user target hu ht]
    exact hsym

/-- Witness for C3 at a concrete state: the pre-state is symmetric for the
pair and stays symmetric after `likeUser`. -/
theorem likeUser_preserves_match_symmetry_witness :
    (matchedIn likeDbConcurrent idA idB = matchedIn likeDbConcurrent idB idA) ∧
    matchedIn (likeUser likeDbConcurrent idA idB).2 idA idB
      = matchedIn (likeUser likeDbConcurrent idA idB).2 idB idA :=
  ⟨by decide,
   likeUser_preserves_match_symmetry likeDbConcurrent idA idB idA idB (by decide)⟩

/-- C2 (code bug): a mutual like that runs from the both-directional-likes
state matches the pair and clears three of the four one-directional records,
but leaves the liker's entry in the target's `likedBy`: line 49 of the route
compares `id.toString() !== userId` — a string against an ObjectId — which
is always `true`, so that filter removes nothing. -/
theorem likeUser_leaves_stale_likedBy :
    (likeUser likeDbConcurrent idA idB).1 = .success true ∧
    ((findById (likeUser likeDbConcurrent idA idB).2 idB).map
      (fun u => u.likedBy)) = some [.oid idA] ∧
    ((findById (likeUser likeDbConcurrent idA idB).2 idA).map
      (fun u => u.likedBy)) = some [] ∧
    ((findById (likeUser likeDbConcurrent idA idB).2 idB).map
      (fun u => u.likedUsers)) = some [] ∧
    ((findById (likeUser likeDbConcurrent idA idB).2 idA).map
      (fun u => u.likedUsers)) = some [] := by
  decide

/-! ## Lemmas about the WebSocket handler -/

/-- On the wire frame the frontend sends, the parse stage succeeds and the
handler proceeds to message routing with the payload's `to` and `content`. -/
theorem handleWsMessage_wrapped (db : WsDb) (clients : Registry)
    (a b content : String) (pf : Bool) (now : Nat) :
    handleWsMessage db clients a (some (wrappedMsgPayload b content)) pf now
      = routeMessage db clients a (some (.str b)) (some (.str content)) pf now := rfl

/-- `routeMessage` when the recipient is not in the sender's `matches`. -/
theorem routeMessage_notIncluded (db : WsDb) (clients : Registry)
    (a b content : String) (pf : Bool) (now : Nat) (ua : WsUser)
    (ha : findById db a = some ua) (hm : ua.«matches».contains b = false) :
    routeMessage db clients a (some (.str b)) (some (.str content)) pf now
      = ⟨db, some notMatchMsg, none⟩ := by
  unfold routeMessage
  rw [ha]
  have hmem : b ∉ ua.«matches» := by simpa using hm
  simp [hmem]

/-- `routeMessage` for a matched pair with the recipient's connection
registered: persist (unless the store fails), push live, no notification. -/
theorem routeMessage_online (db : WsDb) (clients : Registry)
    (a b content : String) (pf : Bool) (now : Nat) (ua : WsUser) (ws : Nat)
    (ha : findById db a = some ua) (hm : ua.«matches».contains b = true)
    (hc : clientsGet clients b = some ws) :
    routeMessage db clients a (some (.str b)) (some (.str content)) pf now
      = ⟨(if pf then db
          else pushMessage (pushMessage db a ⟨a, b, some (.str content), now⟩)
                 b ⟨a, b, some (.str content), now⟩),
         none, some (ws, ⟨a, some (.str content), now⟩)⟩ := by
  unfold routeMessage
  rw [ha]
  simp only [hm, if_true]
  rw [hc]

/-- `routeMessage` for a matched pair with no registered recipient
connection: persist (unless the store fails), no push, one `message`
notification appended to the recipient (schema default `read: false`). -/
theorem routeMessage_offline (db : WsDb) (clients : Registry)
    (a b content : String) (pf : Bool) (now : Nat) (ua : WsUser)
    (ha : findById db a = some ua) (hm : ua.«matches».contains b = true)
    (hc : clientsGet clients b = none) :
    routeMessage db clients a (some (.str b)) (some (.str content)) pf now
      = ⟨pushNotification
          (if pf then db
           else pushMessage (pushMessage db a ⟨a, b, some (.str content), now⟩)
                  b ⟨a, b, some (.str content), now⟩)
          b ⟨"message", "New message from " ++ ua.name, false⟩,
         none, none⟩ := by
  unfold routeMessage
  rw [ha]
  simp only [hm, if_true]
  rw [hc]

/-! ## Claim theorems: the WebSocket router -/

/-- C6: a send between users that are not mutually matched is answered with
`Not a mutual match` and creates no message and no notification record — the
collection is returned unchanged. Stated under the data model's documented
symmetry invariant on `matches` (spec §3), which the like route preserves. -/
theorem send_not_matched_rejected (db : WsDb) (clients : Registry)
    (a b content : String) (pf : Bool) (now : Nat) (ua ub : WsUser)
    (ha : findById db a = some ua) (_hb : findById db b = some ub)
    (hsym : ua.«matches».contains b = ub.«matches».contains a)
    (hnm : ¬(ua.«matches».contains b = true ∧ ub.«matches».contains a = true)) :
    handleWsMessage db clients a (some (wrappedMsgPayload b content)) pf now
      = ⟨db, some notMatchMsg, none⟩ := by
  rw [handleWsMessage_wrapped]
  have hm : ua.«matches».contains b = false := by
    cases h : ua.«matches».contains b
    · rfl
    · exact absurd ⟨h, hsym.symm.trans h⟩ hnm
  exact routeMessage_notIncluded db clients a b content pf now ua ha hm

/-- Witness for C6: two unrelated users, rejection with no state change. -/
theorem send_not_matched_rejected_witness :
    handleWsMessage wsDbUnrelated clientsBoth idA
        (some (wrappedMsgPayload idB "hi")) false 7
      = ⟨wsDbUnrelated, some notMatchMsg, none⟩ :=
  send_not_matched_rejected wsDbUnrelated clientsBoth idA idB "hi" false 7
    ⟨"Alice", [], [], []⟩ ⟨"Bob", [], [], []⟩ rfl rfl rfl (by decide)

/-- C7: a successfully persisted send is pushed live — to the registered
connection, with no notification created for anyone — when the recipient is
in the registry, and otherwise creates exactly one `message` notification
with `read = false` for the recipient (and for no one else) with no live
push. -/
theorem persisted_send_online_or_offline (db : WsDb) (clients : Registry)
    (a b content : String) (now : Nat) (ua ub : WsUser)
    (ha : findById db a = some ua) (hb : findById db b = some ub)
    (hm : ua.«matches».contains b = true) :
    (∀ ws, clientsGet clients b = some ws →
      handleWsMessage db clients a (some (wrappedMsgPayload b content)) false now
        = ⟨pushMessage (pushMessage db a ⟨a, b, some (.str content), now⟩)
             b ⟨a, b, some (.str content), now⟩,
           none, some (ws, ⟨a, some (.str content), now⟩)⟩
      ∧ ∀ k, notifsAt (handleWsMessage db clients a
                (some (wrappedMsgPayload b content)) false now).db k
              = notifsAt db k)
    ∧ (clientsGet clients b = none →
      (handleWsMessage db clients a
          (some (wrappedMsgPayload b content)) false now).push = none
      ∧ notifsAt (handleWsMessage db clients a
            (some (wrappedMsgPayload b content)) false now).db b
          = some (ub.notifications
              ++ [⟨"message", "New message from " ++ ua.name, false⟩])
      ∧ ∀ k, k ≠ b →
          notifsAt (handleWsMessage db clients a
              (some (wrappedMsgPayload b content)) false now).db k
            = notifsAt db k) := by
  constructor
  · intro ws hc
    rw [handleWsMessage_wrapped,
      routeMessage_online db clients a b content false now ua ws ha hm hc]
    refine ⟨rfl, fun k => ?_⟩
    show notifsAt (pushMessage (pushMessage db a _) b _) k = notifsAt db k
    rw [notifsAt_pushMessage, notifsAt_pushMessage]
  · intro hc
    rw [handleWsMessage_wrapped,
      routeMessage_offline db clients a b content false now ua ha hm hc]
    refine ⟨rfl, ?_, fun k hk => ?_⟩
    · show notifsAt (pushNotification (pushMessage (pushMessage db a _) b _) b _) b
        = some (ub.notifications ++ [⟨"message", "New message from " ++ ua.name, false⟩])
      rw [notifsAt_pushNotification_self, notifsAt_pushMessage, notifsAt_pushMessage]
      unfold notifsAt
      rw [hb]
      rfl
    · show notifsAt (pushNotification (pushMessage (pushMessage db a _) b _) b _) k
        = notifsAt db k
      rw [notifsAt_pushNotification_other _ _ _ _ hk,
        notifsAt_pushMessage, notifsAt_pushMessage]

/-- Witness for C7, offline side: the recipient is not registered, so no
push happens and exactly one unread `message` notification is appended. -/
theorem persisted_send_offline_witness :
    (handleWsMessage wsDbMatched clientsAOnly idA
        (some (wrappedMsgPayload idB "hi")) false 7).push = none
    ∧ notifsAt (handleWsMessage wsDbMatched clientsAOnly idA
        (some (wrappedMsgPayload idB "hi")) false 7).db idB
      = some [⟨"message", "New message from Alice", false⟩] := by
  have h := (persisted_send_online_or_offline wsDbMatched clientsAOnly idA idB
      "hi" 7 aliceWs bobWs rfl rfl rfl).2 rfl
  exact ⟨h.1, h.2.1⟩

/-- C1 (amended): when persisting the message fails, the error is caught and
only logged — the sender gets no response at all, no message record is
written, and the message is still pushed live to a registered recipient:
delivery does not wait on durability. -/
theorem persist_failure_swallowed (db : WsDb) (clients : Registry)
    (a b content : String) (now : Nat) (ua : WsUser)
    (ha : findById db a = some ua) (hm : ua.«matches».contains b = true) :
    (handleWsMessage db clients a
        (some (wrappedMsgPayload b content)) true now).response = none
    ∧ (∀ k, msgsAt (handleWsMessage db clients a
          (some (wrappedMsgPayload b content)) true now).db k = msgsAt db k)
    ∧ (∀ ws, clientsGet clients b = some ws →
        (handleWsMessage db clients a
            (some (wrappedMsgPayload b content)) true now).push
          = some (ws, ⟨a, some (.str content), now⟩)) := by
  cases hc : clientsGet clients b with
  | some ws =>
      rw [handleWsMessage_wrapped,
        routeMessage_online db clients a b content true now ua ws ha hm hc]
      refine ⟨rfl, fun k => rfl, fun ws' hws' => ?_⟩
      cases hws'
      rfl
  | none =>
      rw [handleWsMessage_wrapped,
        routeMessage_offline db clients a b content true now ua ha hm hc]
      refine ⟨rfl, fun k => ?_, fun ws' hws' => ?_⟩
      · show msgsAt (pushNotification db b _) k = msgsAt db k
        rw [msgsAt_pushNotification]
      · exact Option.noConfusion hws'

/-- Witness for C1 (amended): concrete persistence failure with the
recipient online — silence to the sender, nothing stored, live push done. -/
theorem persist_failure_swallowed_witness :
    (handleWsMessage wsDbMatched clientsBoth idA
        (some (wrappedMsgPayload idB "hi")) true 7).response = none
    ∧ msgsAt (handleWsMessage wsDbMatched clientsBoth idA
        (some (wrappedMsgPayload idB "hi")) true 7).db idA = msgsAt wsDbMatched idA
    ∧ (handleWsMessage wsDbMatched clientsBoth idA
        (some (wrappedMsgPayload idB "hi")) true 7).push
      = some (2, ⟨idA, some (.str "hi"), 7⟩) := by
  have h := persist_failure_swallowed wsDbMatched clientsBoth idA idB "hi" 7
    aliceWs rfl rfl
  exact ⟨h.1, h.2.1 idA, h.2.2 2 rfl⟩

/-- C1 counterexample: on a persistence failure with the recipient online,
the sender receives no error (the response is `none`, not a
persistence-failure report) and the message is pushed live anyway; the
sender's stored log stays empty. -/
theorem persist_failure_cex :
    (handleWsMessage wsDbMatched clientsBoth idA
        (some (wrappedMsgPayload idB "hi")) true 7).response = none
    ∧ (handleWsMessage wsDbMatched clientsBoth idA
        (some (wrappedMsgPayload idB "hi")) true 7).push
      = some (2, ⟨idA, some (.str "hi"), 7⟩)
    ∧ msgsAt (handleWsMessage wsDbMatched clientsBoth idA
        (some (wrappedMsgPayload idB "hi")) true 7).db idA = some [] :=
  ⟨rfl, rfl, rfl⟩

/-- C4 (amended): the handler never sends any success acknowledgment — a
processed send (matched pair), persisted or not, produces no response to the
sender at all; the only sender-directed writes are the two error strings. -/
theorem no_ack_on_processed_send (db : WsDb) (clients : Registry)
    (a b content : String) (pf : Bool) (now : Nat) (ua : WsUser)
    (ha : findById db a = some ua) (hm : ua.«matches».contains b = true) :
    (handleWsMessage db clients a
        (some (wrappedMsgPayload b content)) pf now).response = none := by
  cases hc : clientsGet clients b with
  | some ws =>
      rw [handleWsMessage_wrapped,
        routeMessage_online db clients a b content pf now ua ws ha hm hc]
  | none =>
      rw [handleWsMessage_wrapped,
        routeMessage_offline db clients a b content pf now ua ha hm hc]

/-- Witness for C4 (amended). -/
theorem no_ack_on_processed_send_witness :
    (handleWsMessage wsDbMatched clientsAOnly idA
        (some (wrappedMsgPayload idB "hi")) false 7).response = none :=
  no_ack_on_processed_send wsDbMatched clientsAOnly idA idB "hi" false 7
    aliceWs rfl rfl

/-- C4 counterexample: a send that is successfully persisted (the sender's
log now holds the message) is answered with no `Ack` — no response of any
kind reaches the sender. -/
theorem ack_missing_cex :
    (handleWsMessage wsDbMatched clientsAOnly idA
        (some (wrappedMsgPayload idB "hi")) false 7).response = none
    ∧ msgsAt (handleWsMessage wsDbMatched clientsAOnly idA
        (some (wrappedMsgPayload idB "hi")) false 7).db idA
      = some [⟨idA, idB, some (.str "hi"), 7⟩] :=
  ⟨rfl, rfl⟩

/-- C8 (amended): the handler performs no content validation at all — any
content, the empty string included, passes straight to the match check and,
for a matched pair, is persisted and processed exactly like any other
content; no `Invalid message format` rejection occurs on content grounds. -/
theorem no_content_validation (db : WsDb) (clients : Registry)
    (a b content : String) (now : Nat) (ua : WsUser)
    (ha : findById db a = some ua) (hm : ua.«matches».contains b = true)
    (hne : a ≠ b) :
    (handleWsMessage db clients a
        (some (wrappedMsgPayload b content)) false now).response
      ≠ some invalidFormatMsg
    ∧ msgsAt (handleWsMessage db clients a
        (some (wrappedMsgPayload b content)) false now).db a
      = (msgsAt db a).map (fun l => l ++ [⟨a, b, some (.str content), now⟩]) := by
  cases hc : clientsGet clients b with
  | some ws =>
      rw [handleWsMessage_wrapped,
        routeMessage_online db clients a b content false now ua ws ha hm hc]
      refine ⟨by simp, ?_⟩
      show msgsAt (pushMessage (pushMessage db a _) b _) a = _
      rw [msgsAt_pushMessage_other _ _ _ _ hne, msgsAt_pushMessage_self]
  | none =>
      rw [handleWsMessage_wrapped,
        routeMessage_offline db clients a b content false now ua ha hm hc]
      refine ⟨by simp, ?_⟩
      show msgsAt (pushNotification (pushMessage (pushMessage db a _) b _) b _) a = _
      rw [msgsAt_pushNotification, msgsAt_pushMessage_other _ _ _ _ hne,
        msgsAt_pushMessage_self]

/-- Witness for C8 (amended), at the empty content. -/
theorem no_content_validation_witness :
    (handleWsMessage wsDbMatched clientsBoth idA
        (some (wrappedMsgPayload idB "")) false 7).response
      ≠ some invalidFormatMsg
    ∧ msgsAt (handleWsMessage wsDbMatched clientsBoth idA
        (some (wrappedMsgPayload idB "")) false 7).db idA
      = (msgsAt wsDbMatched idA).map (fun l => l ++ [⟨idA, idB, some (.str ""), 7⟩]) :=
  no_content_validation wsDbMatched clientsBoth idA idB "" 7 aliceWs rfl rfl
    (by decide)

/-- C8 counterexample: an empty-content send from a matched sender is not
rejected with `Invalid message format` — it gets no response and the empty
message is persisted to the sender's log. -/
theorem empty_content_accepted_cex :
    (handleWsMessage wsDbMatched clientsBoth idA
        (some (wrappedMsgPayload idB "")) false 7).response = none
    ∧ msgsAt (handleWsMessage wsDbMatched clientsBoth idA
        (some (wrappedMsgPayload idB "")) false 7).db idA
      = some [⟨idA, idB, some (.str ""), 7⟩] :=
  ⟨rfl, rfl⟩

/-- C10 (amended): a parseable frame from which `payload.data[0]` can be
read and whose extracted element's `type` is anything but the string
`"message"` is silently ignored — no response of any kind and no state
change. (A parseable frame without the `data`-array wrapper instead throws
at `.data[0]` or `.type` and is answered with `Invalid message format`.) -/
theorem non_message_frame_silent (db : WsDb) (clients : Registry)
    (sender : String) (j : Json) (pf : Bool) (now : Nat) (d ty : JsVal)
    (hd : (jsProp (some j) "data").bind jsIndexZero = .ok d)
    (hty : jsProp d "type" = .ok ty)
    (hnm : isMessageType ty = false) :
    handleWsMessage db clients sender (some j) pf now = ⟨db, none, none⟩ := by
  unfold handleWsMessage
  dsimp only
  rw [hd]
  dsimp only
  rw [hty]
  dsimp only
  simp [hnm]

/-- Witness for C10 (amended): a wrapped frame of type `"ping"` produces
silence. -/
theorem non_message_frame_silent_witness :
    handleWsMessage wsDbMatched clientsBoth idA
        (some (.obj [("data", .arr [.obj [("type", .str "ping")]])])) false 7
      = ⟨wsDbMatched, none, none⟩ :=
  non_message_frame_silent wsDbMatched clientsBoth idA _ false 7
    (some (.obj [("type", .str "ping")])) (some (.str "ping")) rfl rfl rfl

/-- C10 counterexample: the parseable frame `{"type": "like"}` has a `type`
field different from `"message"`, yet the handler is not silent — reading
`.data[0]` throws and it answers `Invalid message format`. -/
theorem typed_frame_not_silent_cex :
    (handleWsMessage wsDbMatched clientsBoth idA
        (some (.obj [("type", .str "like")])) false 7).response
      = some invalidFormatMsg :=
  rfl

/-- C5 (code bug): the wire payload documented in the server's own header
comment and the README — `{"type": "message", "to": ..., "content": ...}` —
is answered with `Invalid message format` and never processed, even between
matched users with the recipient online: the handler reads
`JSON.parse(message).data[0]`, and `.data` of the flat payload is
`undefined`, so `[0]` throws. -/
theorem documented_flat_payload_rejected :
    handleWsMessage wsDbMatched clientsBoth idA
        (some (flatMsgPayload idB "hi")) false 7
      = ⟨wsDbMatched, some invalidFormatMsg, none⟩ :=
  rfl

/-! ## Claim theorems: the connection registry -/

/-- C9 counterexample: user `idA` connects twice — connection 1 is replaced
by connection 2 — and then the stale close event from connection 1 fires:
the registry entry (which authoritatively pointed to connection 2) is
evicted, where the claim requires it to survive. -/
theorem stale_close_evicts_cex :
    clientsGet (onCloseHandler (clientsSet (clientsSet [] idA 1) idA 2) idA 1) idA
      = none := by
  decide

/-- C9 (amended): the close handler removes the user's registry entry
unconditionally — whichever connection closes, authoritative or stale, the
user id is left unregistered. -/
theorem close_always_unregisters (r : Registry) (u : String) (ws : Nat) :
    clientsGet (onCloseHandler r u ws) u = none := by
  unfold onCloseHandler
  induction r with
  | nil => rfl
  | cons p rest ih =>
      obtain ⟨k, v⟩ := p
      by_cases h : k = u
      · subst h
        simpa using ih
      · have hf : (k == u) = false := beq_eq_false_iff_ne.mpr h
        simpa [List.filter_cons, hf, clientsGet] using ih
